import Mathlib

/-!
Verification of the RadarChartWidget data-validation and chart-geometry core.

The definitions below are a shallow embedding of the TypeScript sources:
* `src/src/utils/validationUtils.ts`   — `validateRadarChartData` and its helpers
* `src/src/constants/chartConstants.ts` — the constant tables
* `src/unnamed/part_004`               — `useChartCalculations` / `useChartDimensions`

JavaScript numbers are modelled as exact rationals (`ℚ`) on the validation
side (no floating point is needed for the properties below) and as reals
(`ℝ`) on the geometry side, where `π`, `cos` and `sin` appear.  The special
values `undefined` / `null` / `NaN` / non-number are modelled by explicit
constructors of the raw input types, exactly mirroring the dynamic checks
the TypeScript code performs (`typeof`, `isNaN`, truthiness).
-/

namespace RadarChart

/-! ### Constants (src/src/constants/chartConstants.ts) -/

namespace CHART_DEFAULTS

/-- `CHART_DEFAULTS.MINIMUM_SPOKES = 5`. -/
def MINIMUM_SPOKES : Nat := 5

/-- `CHART_DEFAULTS.GRID_LEVELS = 5`. -/
def GRID_LEVELS : Nat := 5

/-- `CHART_DEFAULTS.PADDING = 60`. -/
def PADDING : Nat := 60

end CHART_DEFAULTS

namespace VALIDATION_CONSTANTS

/-- `VALIDATION_CONSTANTS.MAX_NAME_LENGTH = 20`. -/
def MAX_NAME_LENGTH : Nat := 20

/-- `VALIDATION_CONSTANTS.EMPTY_DATA_MESSAGE`. -/
def EMPTY_DATA_MESSAGE : String :=
  "Data source is empty. Please add data to display the chart."

/-- `VALIDATION_CONSTANTS.NO_DATA_MESSAGE`. -/
def NO_DATA_MESSAGE : String :=
  "No data points provided or data is not an array"

/-- The test of `VALIDATION_CONSTANTS.SPECIAL_CHAR_PATTERN = /[<>'"&]/`:
true when the string holds any of the five characters `<` `>` `'` `"` `&`
(character codes 60, 62, 39, 34, 38). -/
def specialCharTest (s : String) : Bool :=
  s.data.any fun c => c.toNat = 60 || c.toNat = 62 || c.toNat = 39 || c.toNat = 34 || c.toNat = 38

end VALIDATION_CONSTANTS

/-! ### Data model (src/src/types/RadarChartTypes.ts, validationUtils.ts) -/

/-- `RadarChartDataPoint { name: string, value: number }` with the numeric
value modelled as an exact rational. -/
structure RadarChartDataPoint where
  name : String
  value : ℚ
deriving DecidableEq

/-- The five blocking error categories of `ValidationError.type`. -/
inductive ErrorType where
  | MISSING_DATA
  | INVALID_DATA_TYPE
  | EMPTY_VALUES
  | INVALID_RANGE
  | DUPLICATE_NAMES
deriving DecidableEq

/-- The four advisory warning categories of `ValidationWarning.type`. -/
inductive WarningType where
  | DATA_CLAMPED
  | EMPTY_NAME
  | SPECIAL_CHARACTERS
  | LONG_NAME
deriving DecidableEq

/-- `ValidationError { type, message, field?, index? }`. -/
structure ValidationError where
  type : ErrorType
  message : String
  field : Option String
  index : Option Nat
deriving DecidableEq

/-- `ValidationWarning { type, message, field?, index? }`. -/
structure ValidationWarning where
  type : WarningType
  message : String
  field : Option String
  index : Option Nat
deriving DecidableEq

/-- `ValidationResult { isValid, errors, warnings, processedData? }`;
the optional `processedData` is an `Option`. -/
structure ValidationResult where
  isValid : Bool
  errors : List ValidationError
  warnings : List ValidationWarning
  processedData : Option (List RadarChartDataPoint)
deriving DecidableEq

/-- The raw `name` field of an incoming record: either an actual string
value (possibly empty) or some non-string value (`undefined`, `null`, a
number, an object, ...), which `typeof name !== "string"` rejects. -/
inductive RawName where
  | str (s : String)
  | nonString
deriving DecidableEq

/-- The raw `value` field of an incoming record.  `missing` stands for
`undefined`/`null`; `notNumber` stands for any value failing
`typeof value !== "number" || isNaN(value)` (including `NaN`); `num v` is a
genuine (finite) number, modelled exactly as a rational. -/
inductive RawValue where
  | missing
  | notNumber
  | num (v : ℚ)
deriving DecidableEq

/-- One element of the raw input array: either not a usable object
(`!point || typeof point !== "object"`) or an object carrying raw `name`
and `value` fields. -/
inductive RawPoint where
  | notObject
  | point (name : RawName) (value : RawValue)
deriving DecidableEq

/-- The whole raw argument of `validateRadarChartData`: `notArray` covers
`null`, `undefined` and every non-array value
(`!dataPoints || !Array.isArray(dataPoints)`). -/
inductive RawData where
  | notArray
  | array (points : List RawPoint)
deriving DecidableEq

/-- Model of JavaScript `String.prototype.trim()`: drops leading and
trailing whitespace.  (Defined structurally over the character list so
that concrete scenarios reduce inside the kernel.) -/
def jsTrim (s : String) : String :=
  String.mk (((s.data.dropWhile Char.isWhitespace).reverse.dropWhile Char.isWhitespace).reverse)

/-- Model of JavaScript `String.prototype.toLowerCase()` for the ASCII
names the widget handles. -/
def jsToLower (s : String) : String :=
  String.mk (s.data.map Char.toLower)

/-- Rendering of a rational number inside diagnostic messages.  Matches the
JavaScript template-literal rendering on integers (the only values the
verified scenarios exercise); non-integral rationals are shown as
`num/den`. -/
def ratStr (q : ℚ) : String :=
  if q.den = 1 then toString q.num else toString q.num ++ "/" ++ toString q.den

/-! ### validateDataPointName (validationUtils.ts lines 166-230) -/

/-- Result record of `validateDataPointName`, together with the updated
`seenNames` set (the TypeScript function mutates the `Set` it is handed;
here the updated collection of lower-cased names is returned explicitly,
as a list without duplicates). -/
structure NameValidation where
  processedName : String
  errors : List ValidationError
  warnings : List ValidationWarning
  seenNames : List String
deriving DecidableEq

/-- Shallow embedding of `validateDataPointName(name, index, seenNames)`.

Mirrors the source line by line:
* `if (!name || typeof name !== "string")` — true for every non-string and
  also for the empty string (the empty string is falsy in JavaScript), in
  which case an `INVALID_DATA_TYPE` error is pushed and the function
  returns early with the default name `Category {index+1}`;
* otherwise the name is trimmed; a trimmed-empty name yields an
  `EMPTY_NAME` warning and the same default;
* a case-insensitive duplicate of a seen name yields a `DUPLICATE_NAMES`
  error, otherwise the lower-cased name is added to the seen set;
* length and special-character warnings follow. -/
def validateDataPointName (name : RawName) (index : Nat) (seenNames : List String) :
    NameValidation :=
  match name with
  | .nonString =>
      { processedName := "Category " ++ toString (index + 1)
        errors := [{ type := .INVALID_DATA_TYPE
                     message := "Name at index " ++ toString index ++ " is missing or not a string"
                     field := some "name", index := some index }]
        warnings := []
        seenNames := seenNames }
  | .str s =>
      if s = "" then
        { processedName := "Category " ++ toString (index + 1)
          errors := [{ type := .INVALID_DATA_TYPE
                       message := "Name at index " ++ toString index ++ " is missing or not a string"
                       field := some "name", index := some index }]
          warnings := []
          seenNames := seenNames }
      else
        let trimmed := jsTrim s
        let emptyAfterTrim := trimmed.length = 0
        let processedName :=
          if emptyAfterTrim then "Category " ++ toString (index + 1) else trimmed
        let emptyWarnings : List ValidationWarning :=
          if emptyAfterTrim then
            [{ type := .EMPTY_NAME
               message := "Name at index " ++ toString index ++ " is empty after trimming"
               field := some "name", index := some index }]
          else []
        let dup := jsToLower processedName ∈ seenNames
        let dupErrors : List ValidationError :=
          if dup then
            [{ type := .DUPLICATE_NAMES
               message := "Duplicate name \"" ++ processedName ++ "\" found at index " ++ toString index
               field := some "name", index := some index }]
          else []
        let seenNames2 := if dup then seenNames else seenNames ++ [jsToLower processedName]
        let longWarnings : List ValidationWarning :=
          if VALIDATION_CONSTANTS.MAX_NAME_LENGTH < processedName.length then
            [{ type := .LONG_NAME
               message := "Name \"" ++ processedName ++ "\" is very long and may be truncated in display"
               field := some "name", index := some index }]
          else []
        let specialWarnings : List ValidationWarning :=
          if VALIDATION_CONSTANTS.specialCharTest processedName then
            [{ type := .SPECIAL_CHARACTERS
               message := "Name \"" ++ processedName ++ "\" contains special characters that may affect display"
               field := some "name", index := some index }]
          else []
        { processedName := processedName
          errors := dupErrors
          warnings := emptyWarnings ++ longWarnings ++ specialWarnings
          seenNames := seenNames2 }

/-! ### validateDataPointValue (validationUtils.ts lines 269-321) -/

/-- Result record of `validateDataPointValue`. -/
structure ValueValidation where
  processedValue : ℚ
  errors : List ValidationError
  warnings : List ValidationWarning
deriving DecidableEq

/-- The clamping operation inlined in `validateDataPointValue`
(validationUtils.ts lines 301-318): values below `minValue` become
`minValue`, values above `maxValue` become `maxValue`. -/
def clampValue (minValue maxValue v : ℚ) : ℚ :=
  if v < minValue then minValue else if maxValue < v then maxValue else v

/-- Shallow embedding of `validateDataPointValue(value, index, maxValue, minValue)`:
missing or non-numeric values produce an `INVALID_DATA_TYPE` error with
processed value `0`; numeric values are clamped to `[minValue, maxValue]`
with a `DATA_CLAMPED` warning when the clamping changed the value. -/
def validateDataPointValue (value : RawValue) (index : Nat) (maxValue minValue : ℚ) :
    ValueValidation :=
  match value with
  | .missing =>
      { processedValue := 0
        errors := [{ type := .INVALID_DATA_TYPE
                     message := "Value at index " ++ toString index ++ " is missing"
                     field := some "value", index := some index }]
        warnings := [] }
  | .notNumber =>
      { processedValue := 0
        errors := [{ type := .INVALID_DATA_TYPE
                     message := "Value at index " ++ toString index ++ " is not a valid number"
                     field := some "value", index := some index }]
        warnings := [] }
  | .num v =>
      if v < minValue then
        { processedValue := minValue
          errors := []
          warnings := [{ type := .DATA_CLAMPED
                         message := "Value " ++ ratStr v ++ " at index " ++ toString index ++
                           " is below minimum (" ++ ratStr minValue ++ ") and will be clamped"
                         field := some "value", index := some index }] }
      else if maxValue < v then
        { processedValue := maxValue
          errors := []
          warnings := [{ type := .DATA_CLAMPED
                         message := "Value " ++ ratStr v ++ " at index " ++ toString index ++
                           " is above maximum (" ++ ratStr maxValue ++ ") and will be clamped"
                         field := some "value", index := some index }] }
      else
        { processedValue := v, errors := [], warnings := [] }

/-! ### validateRadarChartData (validationUtils.ts lines 370-445) -/

/-- Mutable state of the `dataPoints.forEach` loop in
`validateRadarChartData`: the accumulated errors, warnings, processed data
and the seen-names set. -/
structure ValState where
  errors : List ValidationError
  warnings : List ValidationWarning
  processedData : List RadarChartDataPoint
  seenNames : List String
deriving DecidableEq

/-- One iteration of the `forEach` body (validationUtils.ts lines 400-427):
a non-object point only records an `INVALID_DATA_TYPE` error; an object
point is run through the name and value validators, and a processed point
is appended whenever the processed name is truthy (non-empty) — the
`!isNaN(processedValue)` half of the guard is always true here because the
value validator never returns `NaN` (its error paths return `0`). -/
def processPoint (maxValue minValue : ℚ) (p : RawPoint) (index : Nat) (st : ValState) :
    ValState :=
  match p with
  | .notObject =>
      { st with
        errors := st.errors ++
          [{ type := .INVALID_DATA_TYPE
             message := "Data point at index " ++ toString index ++ " is not a valid object"
             field := none, index := some index }] }
  | .point name value =>
      let nameValidation := validateDataPointName name index st.seenNames
      let valueValidation := validateDataPointValue value index maxValue minValue
      { errors := st.errors ++ nameValidation.errors ++ valueValidation.errors
        warnings := st.warnings ++ nameValidation.warnings ++ valueValidation.warnings
        processedData :=
          if nameValidation.processedName = "" then st.processedData
          else st.processedData ++
            [{ name := nameValidation.processedName, value := valueValidation.processedValue }]
        seenNames := nameValidation.seenNames }

/-- The `forEach` loop over the raw points, threading the loop state and
the running index. -/
def processPoints (maxValue minValue : ℚ) : List RawPoint → Nat → ValState → ValState
  | [], _, st => st
  | p :: rest, index, st =>
      processPoints maxValue minValue rest (index + 1) (processPoint maxValue minValue p index st)

/-- Shallow embedding of `validateRadarChartData(dataPoints, maxValue = 5, minValue = 0)`.
The two structural early returns (`MISSING_DATA`, `EMPTY_VALUES`) are
followed by the per-point loop, the final empty-result check, and the
assembly of the result; `processedData` is populated exactly when
`isValid` holds. -/
def validateRadarChartData (dataPoints : RawData) (maxValue minValue : ℚ) :
    ValidationResult :=
  match dataPoints with
  | .notArray =>
      { isValid := false
        errors := [{ type := .MISSING_DATA
                     message := VALIDATION_CONSTANTS.NO_DATA_MESSAGE
                     field := none, index := none }]
        warnings := []
        processedData := none }
  | .array pts =>
      if pts.length = 0 then
        { isValid := false
          errors := [{ type := .EMPTY_VALUES
                       message := VALIDATION_CONSTANTS.EMPTY_DATA_MESSAGE
                       field := none, index := none }]
          warnings := []
          processedData := none }
      else
        let st := processPoints maxValue minValue pts 0
          { errors := [], warnings := [], processedData := [], seenNames := [] }
        let finalErrors :=
          if st.processedData.length = 0 then
            st.errors ++
              [{ type := .EMPTY_VALUES
                 message := "No valid data points found after processing"
                 field := none, index := none }]
          else st.errors
        let isValid : Bool := finalErrors.isEmpty && decide (0 < st.processedData.length)
        { isValid := isValid
          errors := finalErrors
          warnings := st.warnings
          processedData := if isValid then some st.processedData else none }

end RadarChart

/-! ### Helper lemmas about the validator -/

namespace RadarChart

/-- Substring containment test, used to state that a diagnostic message
mentions a given value. -/
def containsSub (s pat : String) : Bool :=
  s.data.tails.any fun t => pat.data.isPrefixOf t

/-- The processed name returned by `validateDataPointName` is never the
empty string: every fallback is `Category {index+1}` and the trimmed-name
branch is only kept when the trimmed name is non-empty. -/
theorem processedName_ne_empty (name : RawName) (index : Nat) (seen : List String) :
    (validateDataPointName name index seen).processedName ≠ "" := by
  have hcat : ∀ t : String, "Category " ++ t ≠ "" := by
    intro t h
    have h2 := congrArg String.length h
    rw [String.length_append] at h2
    have h3 : ("Category ").length = 9 := by decide
    have h4 : ("").length = 0 := by decide
    rw [h3, h4] at h2
    omega
  cases name with
  | nonString =>
      simpa only [validateDataPointName] using hcat (toString (index + 1))
  | str s =>
      simp only [validateDataPointName]
      split
      · exact hcat (toString (index + 1))
      · simp only []
        split
        · exact hcat (toString (index + 1))
        · next hne =>
          intro h
          apply hne
          rw [h]
          decide

/-- When the value validator reports no error, the processed value lies in
`[minValue, maxValue]` (assuming a sane configuration `minValue ≤ maxValue`). -/
theorem processedValue_in_range {value : RawValue} {index : Nat} {maxValue minValue : ℚ}
    (hle : minValue ≤ maxValue)
    (h : (validateDataPointValue value index maxValue minValue).errors = []) :
    minValue ≤ (validateDataPointValue value index maxValue minValue).processedValue ∧
      (validateDataPointValue value index maxValue minValue).processedValue ≤ maxValue := by
  cases value with
  | missing => simp [validateDataPointValue] at h
  | notNumber => simp [validateDataPointValue] at h
  | num v =>
      simp only [validateDataPointValue]
      split_ifs with h1 h2
      · exact ⟨le_refl _, hle⟩
      · exact ⟨hle, le_refl _⟩
      · exact ⟨not_lt.mp h1, not_lt.mp h2⟩

/-- Each loop iteration only appends to the error list. -/
theorem processPoint_errors_append (maxValue minValue : ℚ) (p : RawPoint) (index : Nat)
    (st : ValState) :
    ∃ es, (processPoint maxValue minValue p index st).errors = st.errors ++ es := by
  cases p with
  | notObject => exact ⟨_, rfl⟩
  | point name value =>
      exact ⟨(validateDataPointName name index st.seenNames).errors ++
          (validateDataPointValue value index maxValue minValue).errors,
        by simp [processPoint]⟩

/-- The loop never clears errors: once the state carries an error, the
final state still does. -/
theorem processPoints_errors_ne_nil (maxValue minValue : ℚ) :
    ∀ (l : List RawPoint) (index : Nat) (st : ValState), st.errors ≠ [] →
      (processPoints maxValue minValue l index st).errors ≠ [] := by
  intro l
  induction l with
  | nil => intro index st h; exact h
  | cons p rest ih =>
      intro index st h
      obtain ⟨es, hes⟩ := processPoint_errors_append maxValue minValue p index st
      refine ih (index + 1) _ ?_
      rw [hes]
      simp [h]

/-- If the final state of the loop carries no error, neither does any
intermediate state. -/
theorem processPoints_errors_nil_of_final (maxValue minValue : ℚ) (l : List RawPoint)
    (index : Nat) (st : ValState)
    (h : (processPoints maxValue minValue l index st).errors = []) : st.errors = [] := by
  by_contra hne
  exact processPoints_errors_ne_nil maxValue minValue l index st hne h

/-- Loop invariant: when the loop finishes without errors, every processed
value lies in `[minValue, maxValue]` (given `minValue ≤ maxValue`). -/
theorem processPoints_values_in_range {maxValue minValue : ℚ} (hle : minValue ≤ maxValue) :
    ∀ (l : List RawPoint) (index : Nat) (st : ValState),
      (∀ p ∈ st.processedData, minValue ≤ p.value ∧ p.value ≤ maxValue) →
      (processPoints maxValue minValue l index st).errors = [] →
      ∀ p ∈ (processPoints maxValue minValue l index st).processedData,
        minValue ≤ p.value ∧ p.value ≤ maxValue := by
  intro l
  induction l with
  | nil => intro index st hinv _ p hp; exact hinv p hp
  | cons q rest ih =>
      intro index st hinv hfin
      have hst' : (processPoint maxValue minValue q index st).errors = [] :=
        processPoints_errors_nil_of_final maxValue minValue rest (index + 1) _ hfin
      refine ih (index + 1) _ ?_ hfin
      cases q with
      | notObject =>
          exfalso
          simp [processPoint] at hst'
      | point name value =>
          have hverr : (validateDataPointValue value index maxValue minValue).errors = [] := by
            simp only [processPoint] at hst'
            simp only [List.append_assoc, List.append_eq_nil] at hst'
            exact hst'.2.2
          intro p hp
          simp only [processPoint] at hp
          by_cases hname : (validateDataPointName name index st.seenNames).processedName = ""
          · rw [if_pos hname] at hp
            exact hinv p hp
          · rw [if_neg hname] at hp
            rcases List.mem_append.mp hp with hmem | hnew
            · exact hinv p hmem
            · have : p = { name := (validateDataPointName name index st.seenNames).processedName,
                           value := (validateDataPointValue value index maxValue minValue).processedValue } := by
                simpa using hnew
              rw [this]
              exact processedValue_in_range hle hverr

/-- Loop invariant: when the loop finishes without errors, exactly one
processed point was appended per input element. -/
theorem processPoints_length (maxValue minValue : ℚ) :
    ∀ (l : List RawPoint) (index : Nat) (st : ValState),
      (processPoints maxValue minValue l index st).errors = [] →
      (processPoints maxValue minValue l index st).processedData.length =
        st.processedData.length + l.length := by
  intro l
  induction l with
  | nil => intro index st _; simp [processPoints]
  | cons q rest ih =>
      intro index st hfin
      have hst' : (processPoint maxValue minValue q index st).errors = [] :=
        processPoints_errors_nil_of_final maxValue minValue rest (index + 1) _ hfin
      have hrec := ih (index + 1) (processPoint maxValue minValue q index st) hfin
      cases q with
      | notObject =>
          exfalso
          simp [processPoint] at hst'
      | point name value =>
          have hname := processedName_ne_empty name index st.seenNames
          simp only [processPoints] at hrec ⊢
          rw [hrec]
          simp only [processPoint, if_neg hname, List.length_append, List.length_cons,
            List.length_nil]
          omega

/-- Unfolding helper: a successful validation (`isValid = true`) means the
per-point loop finished with no errors and a non-empty processed list, and
`processedData` is exactly that list. -/
theorem validate_success_characterization (l : List RawPoint) (maxValue minValue : ℚ)
    (h : (validateRadarChartData (.array l) maxValue minValue).isValid = true) :
    (processPoints maxValue minValue l 0
        { errors := [], warnings := [], processedData := [], seenNames := [] }).errors = [] ∧
    0 < (processPoints maxValue minValue l 0
        { errors := [], warnings := [], processedData := [], seenNames := [] }).processedData.length ∧
    (validateRadarChartData (.array l) maxValue minValue).processedData =
      some (processPoints maxValue minValue l 0
        { errors := [], warnings := [], processedData := [], seenNames := [] }).processedData := by
  by_cases hlen : l.length = 0
  · simp [validateRadarChartData, hlen] at h
  · simp only [validateRadarChartData, if_neg hlen] at h ⊢
    have h' := h
    rw [Bool.and_eq_true] at h'
    have hpos : 0 < (processPoints maxValue minValue l 0
        { errors := [], warnings := [], processedData := [], seenNames := [] }).processedData.length :=
      of_decide_eq_true h'.2
    have hnempty : ¬ (processPoints maxValue minValue l 0
        { errors := [], warnings := [], processedData := [], seenNames := [] }).processedData.length = 0 := by
      omega
    rw [if_neg hnempty] at h'
    refine ⟨?_, hpos, ?_⟩
    · rcases h' with ⟨h1, _⟩
      rwa [List.isEmpty_iff] at h1
    · simp only [h, if_true]

/-! ### Claim theorems: validator -/

/-- C1 (amended): for every raw input and every configuration with
`0 ≤ minValue` and `minValue ≤ maxValue`, if `isValid` is true then
`processedData` is defined, has length at least `1`, and every processed
value lies in `[0, maxValue]`; moreover — for every configuration
whatsoever — `processedData` is defined if and only if `isValid` is true.
(The original claim, quantified over arbitrary `minValue`, is refuted by
`validate_range_invariant_counterexample` below.) -/
theorem validate_range_invariant (pts : RawData) (maxValue minValue : ℚ) :
    (0 ≤ minValue → minValue ≤ maxValue →
      (validateRadarChartData pts maxValue minValue).isValid = true →
      ∃ l, (validateRadarChartData pts maxValue minValue).processedData = some l ∧
        1 ≤ l.length ∧ ∀ p ∈ l, 0 ≤ p.value ∧ p.value ≤ maxValue) ∧
    (validateRadarChartData pts maxValue minValue).processedData.isSome =
      (validateRadarChartData pts maxValue minValue).isValid := by
  constructor
  · intro h0 hle hvalid
    cases pts with
    | notArray => simp [validateRadarChartData] at hvalid
    | array l =>
        obtain ⟨herr, hpos, hdata⟩ :=
          validate_success_characterization l maxValue minValue hvalid
        refine ⟨_, hdata, by omega, ?_⟩
        intro p hp
        have hrange := processPoints_values_in_range hle l 0
          { errors := [], warnings := [], processedData := [], seenNames := [] }
          (by intro q hq; simp at hq) herr p hp
        exact ⟨le_trans h0 hrange.1, hrange.2⟩
  · cases pts with
    | notArray => simp [validateRadarChartData]
    | array l =>
        by_cases hlen : l.length = 0
        · simp [validateRadarChartData, hlen]
        · simp only [validateRadarChartData, if_neg hlen]
          by_cases hb : ((if (processPoints maxValue minValue l 0
                { errors := [], warnings := [], processedData := [], seenNames := [] }).processedData.length = 0 then
                (processPoints maxValue minValue l 0
                  { errors := [], warnings := [], processedData := [], seenNames := [] }).errors ++
                  [{ type := .EMPTY_VALUES
                     message := "No valid data points found after processing"
                     field := none, index := none }]
              else
                (processPoints maxValue minValue l 0
                  { errors := [], warnings := [], processedData := [], seenNames := [] }).errors).isEmpty &&
              decide (0 < (processPoints maxValue minValue l 0
                { errors := [], warnings := [], processedData := [], seenNames := [] }).processedData.length)) = true
          · simp only [hb, if_true, Option.isSome_some]
          · rw [Bool.not_eq_true] at hb
            simp only [hb, Bool.false_eq_true, if_false, Option.isSome_none]

/-- C1 counterexample: with `minValue = -1` the input `[{name:"A", value:-1}]`
validates successfully but the processed value `-1` does not lie in
`[0, maxValue]` — so the claim is false for arbitrary `minValue`. -/
theorem validate_range_invariant_counterexample :
    (validateRadarChartData (.array [.point (.str "A") (.num (-1))]) 5 (-1)).isValid = true ∧
    (validateRadarChartData (.array [.point (.str "A") (.num (-1))]) 5 (-1)).processedData =
      some [{ name := "A", value := -1 }] ∧
    ¬ (0:ℚ) ≤ -1 := by
  refine ⟨by decide, by decide, by norm_num⟩

/-- C1 witness: the amended theorem applied to the concrete input
`[{name:"A", value:3}]` with `maxValue = 5`, `minValue = 0`. -/
theorem validate_range_invariant_witness :
    ∃ l, (validateRadarChartData (.array [.point (.str "A") (.num 3)]) 5 0).processedData = some l ∧
      1 ≤ l.length ∧ ∀ p ∈ l, 0 ≤ p.value ∧ p.value ≤ 5 :=
  (validate_range_invariant (.array [.point (.str "A") (.num 3)]) 5 0).1
    (by norm_num) (by norm_num) (by decide)

/-- C10: whenever validation succeeds, the processed list has exactly the
same length as the raw input array — no element is dropped and none is
invented. -/
theorem validate_success_preserves_length (pts : List RawPoint) (maxValue minValue : ℚ)
    (hvalid : (validateRadarChartData (.array pts) maxValue minValue).isValid = true) :
    ∃ l, (validateRadarChartData (.array pts) maxValue minValue).processedData = some l ∧
      l.length = pts.length := by
  obtain ⟨herr, _, hdata⟩ := validate_success_characterization pts maxValue minValue hvalid
  refine ⟨_, hdata, ?_⟩
  have := processPoints_length maxValue minValue pts 0
    { errors := [], warnings := [], processedData := [], seenNames := [] } herr
  simpa using this

/-- C10 witness: the length-preservation theorem applied to a concrete
two-element input. -/
theorem validate_success_preserves_length_witness :
    ∃ l, (validateRadarChartData
        (.array [.point (.str "A") (.num 1), .point (.str "B") (.num 2)]) 5 0).processedData =
        some l ∧
      l.length = [RawPoint.point (.str "A") (.num 1), RawPoint.point (.str "B") (.num 2)].length :=
  validate_success_preserves_length
    [.point (.str "A") (.num 1), .point (.str "B") (.num 2)] 5 0 (by decide)

/-- C2 (code behavior at the failing input): for the name `""` — a string
that trims to the empty string — `validateDataPointName` takes the
`!name` early-return branch (the empty string is falsy in JavaScript) and
reports the blocking error `INVALID_DATA_TYPE` with no warning, so the
whole validation of `[{name:"", value:3}]` fails; the claim (and the
function's own documentation example) expect the non-blocking `EMPTY_NAME`
warning instead. -/
theorem emptyString_name_yields_type_error :
    validateDataPointName (.str "") 0 [] =
      { processedName := "Category 1"
        errors := [{ type := .INVALID_DATA_TYPE
                     message := "Name at index 0 is missing or not a string"
                     field := some "name", index := some 0 }]
        warnings := []
        seenNames := [] } ∧
    validateRadarChartData (.array [.point (.str "") (.num 3)]) 5 0 =
      { isValid := false
        errors := [{ type := .INVALID_DATA_TYPE
                     message := "Name at index 0 is missing or not a string"
                     field := some "name", index := some 0 }]
        warnings := []
        processedData := none } := by
  exact ⟨by decide, by decide⟩

/-- C3: duplicate names are detected case-insensitively and reported at the
later index: `validate([{name:"A", value:1},{name:"a", value:2}], 5, 0)`
produces exactly one `DUPLICATE_NAMES` error at index 1, `isValid = false`
and undefined `processedData`. -/
theorem duplicate_names_scenario :
    validateRadarChartData
        (.array [.point (.str "A") (.num 1), .point (.str "a") (.num 2)]) 5 0 =
      { isValid := false
        errors := [{ type := .DUPLICATE_NAMES
                     message := "Duplicate name \"a\" found at index 1"
                     field := some "name", index := some 1 }]
        warnings := []
        processedData := none } := by
  decide

/-- C4: `validate([{name:"A", value:7}], maxValue = 5, minValue = 0)`
produces exactly one `DATA_CLAMPED` warning at index 0 whose message
mentions both the original value `7` and the clamped value `5`, the
processed value is `5`, and the result is valid. -/
theorem clamping_scenario :
    validateRadarChartData (.array [.point (.str "A") (.num 7)]) 5 0 =
      { isValid := true
        errors := []
        warnings := [{ type := .DATA_CLAMPED
                       message := "Value 7 at index 0 is above maximum (5) and will be clamped"
                       field := some "value", index := some 0 }]
        processedData := some [{ name := "A", value := 5 }] } ∧
    containsSub "Value 7 at index 0 is above maximum (5) and will be clamped" (ratStr 7) = true ∧
    containsSub "Value 7 at index 0 is above maximum (5) and will be clamped" (ratStr 5) = true := by
  exact ⟨by decide, by decide, by decide⟩

/-- C5 (amended): the clamping operation used by `validateDataPointValue`
is idempotent for every sane configuration `minValue ≤ maxValue` (the
unrestricted claim fails when `minValue > maxValue`, see
`clamp_idempotent_counterexample`); the second conjunct records that
`clampValue` is indeed the processed value the validator returns on
numeric input. -/
theorem clamp_idempotent (minValue maxValue v : ℚ) (index : Nat)
    (hle : minValue ≤ maxValue) :
    clampValue minValue maxValue (clampValue minValue maxValue v) =
      clampValue minValue maxValue v ∧
    (validateDataPointValue (.num v) index maxValue minValue).processedValue =
      clampValue minValue maxValue v := by
  constructor
  · unfold clampValue
    split_ifs <;> linarith
  · simp only [validateDataPointValue, clampValue]
    split_ifs <;> rfl

/-- C5 counterexample: with the inverted configuration `minValue = 10 >
maxValue = 5` the clamp is not idempotent: `clamp(3) = 10` but
`clamp(clamp(3)) = 5`. -/
theorem clamp_idempotent_counterexample :
    clampValue 10 5 (clampValue 10 5 3) ≠ clampValue 10 5 3 := by
  decide

/-- C5 witness: idempotence at the concrete configuration
`minValue = 0 ≤ maxValue = 5` and value `7`. -/
theorem clamp_idempotent_witness :
    clampValue 0 5 (clampValue 0 5 7) = clampValue 0 5 7 ∧
    (validateDataPointValue (.num 7) 0 5 0).processedValue = clampValue 0 5 7 :=
  clamp_idempotent 0 5 7 0 (by norm_num)

/-! ### Normalizer (src/unnamed/part_004, useChartCalculations lines 152-164) -/

/-- The `while (processedData.length < CHART_DEFAULTS.MINIMUM_SPOKES)` loop
of the `normalizedData` computation: keeps appending
`{ name: "Point {length+1}", value: 0 }` until at least five points
exist. -/
def padToMinimumSpokes (ps : List RadarChartDataPoint) : List RadarChartDataPoint :=
  if h : ps.length < CHART_DEFAULTS.MINIMUM_SPOKES then
    padToMinimumSpokes (ps ++ [{ name := "Point " ++ toString (ps.length + 1), value := 0 }])
  else ps
termination_by CHART_DEFAULTS.MINIMUM_SPOKES - ps.length
decreasing_by
  simp only [List.length_append, List.length_cons, List.length_nil]
  omega

/-- Shallow embedding of the `normalizedData` memo of `useChartCalculations`:
copy the input and pad it to the minimum spoke count. -/
def normalize (data : List RadarChartDataPoint) : List RadarChartDataPoint :=
  padToMinimumSpokes data

/-- Closed form of the padding loop: the appended points are the synthetic
points `Point (n+1)` for the missing positions `n`. -/
theorem padToMinimumSpokes_eq (k : Nat) :
    ∀ ps : List RadarChartDataPoint, CHART_DEFAULTS.MINIMUM_SPOKES - ps.length = k →
      padToMinimumSpokes ps =
        ps ++ (List.range' ps.length k).map
          (fun n => { name := "Point " ++ toString (n + 1), value := 0 }) := by
  induction k with
  | zero =>
      intro ps hk
      rw [padToMinimumSpokes]
      have hge : ¬ ps.length < CHART_DEFAULTS.MINIMUM_SPOKES := by omega
      simp [hge]
  | succ k ih =>
      intro ps hk
      have hlt : ps.length < CHART_DEFAULTS.MINIMUM_SPOKES := by omega
      rw [padToMinimumSpokes, dif_pos hlt]
      have hnext : CHART_DEFAULTS.MINIMUM_SPOKES -
          (ps ++ [({ name := "Point " ++ toString (ps.length + 1), value := 0 } :
            RadarChartDataPoint)]).length = k := by
        simp only [List.length_append, List.length_cons, List.length_nil]
        omega
      rw [ih _ hnext]
      simp only [List.length_append, List.length_cons, List.length_nil, List.append_assoc,
        List.range'_succ, List.map_cons]
      rfl

/-- C6: `normalize` returns a list of length `max(points.length, 5)` whose
first `points.length` elements are the input unchanged and in order,
followed by synthetic points `{name: "Point {n}", value: 0}` for the
missing positions; in particular a two-element input is padded with
`"Point 3"`, `"Point 4"`, `"Point 5"`, each with value `0`. -/
theorem normalize_spec :
    (∀ ps : List RadarChartDataPoint,
      normalize ps =
        ps ++ (List.range' ps.length (CHART_DEFAULTS.MINIMUM_SPOKES - ps.length)).map
          (fun n => { name := "Point " ++ toString (n + 1), value := 0 }) ∧
      (normalize ps).length = max ps.length 5 ∧
      (normalize ps).take ps.length = ps) ∧
    normalize [{ name := "A", value := 1 }, { name := "B", value := 2 }] =
      [{ name := "A", value := 1 }, { name := "B", value := 2 },
       { name := "Point 3", value := 0 }, { name := "Point 4", value := 0 },
       { name := "Point 5", value := 0 }] := by
  have hmain : ∀ ps : List RadarChartDataPoint,
      normalize ps =
        ps ++ (List.range' ps.length (CHART_DEFAULTS.MINIMUM_SPOKES - ps.length)).map
          (fun n => { name := "Point " ++ toString (n + 1), value := 0 }) := by
    intro ps
    exact padToMinimumSpokes_eq (CHART_DEFAULTS.MINIMUM_SPOKES - ps.length) ps rfl
  refine ⟨fun ps => ⟨hmain ps, ?_, ?_⟩, by rw [hmain]; decide⟩
  · rw [hmain ps]
    simp only [List.length_append, List.length_map, List.length_range']
    have : CHART_DEFAULTS.MINIMUM_SPOKES = 5 := rfl
    omega
  · rw [hmain ps]
    exact List.take_left ps _

/-! ### GeometryEngine (src/unnamed/part_004) -/

/-- `ChartDimensions { centerX, centerY, radius, spokeCount, angleStep }`;
every field is a JavaScript number, modelled as a real. -/
structure ChartDimensions where
  centerX : ℝ
  centerY : ℝ
  radius : ℝ
  spokeCount : ℝ
  angleStep : ℝ

/-- `Point { x, y }` in SVG coordinate space. -/
structure Point where
  x : ℝ
  y : ℝ

/-- Shallow embedding of `useChartDimensions(width, height, spokeCount)`
(part_004 lines 378-394): half-size center, padded radius, at least five
spokes, and the full circle divided evenly among them. -/
noncomputable def computeDimensions (width height spokeCountHint : ℝ) : ChartDimensions :=
  let centerX := width / 2
  let centerY := height / 2
  let radius := min width height / 2 - (CHART_DEFAULTS.PADDING : ℝ)
  let actualSpokeCount := max (CHART_DEFAULTS.MINIMUM_SPOKES : ℝ) spokeCountHint
  let angleStep := 2 * Real.pi / actualSpokeCount
  { centerX := centerX, centerY := centerY, radius := radius,
    spokeCount := actualSpokeCount, angleStep := angleStep }

/-- The per-point precomputation of the `staticDataPoints` memo of
`useChartCalculations` (part_004 lines 223-240): angle from the index,
value clamped to `[0, maxValue]`, maximal radius proportional to the
clamped value, and the trigonometric factors computed once. -/
structure StaticPoint where
  angle : ℝ
  maxRadius : ℝ
  centerX : ℝ
  centerY : ℝ
  cos : ℝ
  sin : ℝ

/-- One element of the `staticDataPoints` memo, for the data point at the
given `index` with the given raw `value`. -/
noncomputable def computeStaticPoint (dims : ChartDimensions) (value maxValue : ℝ)
    (index : Nat) : StaticPoint :=
  let angle := index * dims.angleStep - Real.pi / 2
  let clampedValue := max 0 (min maxValue value)
  let maxPointRadius := dims.radius * clampedValue / maxValue
  { angle := angle, maxRadius := maxPointRadius, centerX := dims.centerX,
    centerY := dims.centerY, cos := Real.cos angle, sin := Real.sin angle }

/-- The per-tick interpolation of the `dataPoints` memo of
`useChartCalculations` (part_004 lines 248-257): the precomputed radius is
scaled by the animation progress, no trigonometric function is
re-evaluated. -/
noncomputable def computeAnimatedPoint (sp : StaticPoint) (progress : ℝ) : Point :=
  let animatedRadius := sp.maxRadius * progress
  { x := sp.centerX + animatedRadius * sp.cos, y := sp.centerY + animatedRadius * sp.sin }

/-- C7: `computeDimensions` returns `centerX = width/2`, `centerY = height/2`,
`radius = min(width,height)/2 − 60`, `spokeCount = max(5, hint)` and
`angleStep = 2π/spokeCount`, so `angleStep * spokeCount = 2π` always; the
concrete call `computeDimensions(400, 400, 8)` yields
`(200, 200, 140, 8, π/4)` with `π/4` within `10⁻⁶` of `0.7853981634`. -/
theorem computeDimensions_spec :
    (∀ width height spokeCountHint : ℝ,
      (computeDimensions width height spokeCountHint).centerX = width / 2 ∧
      (computeDimensions width height spokeCountHint).centerY = height / 2 ∧
      (computeDimensions width height spokeCountHint).radius = min width height / 2 - 60 ∧
      (computeDimensions width height spokeCountHint).spokeCount = max 5 spokeCountHint ∧
      (computeDimensions width height spokeCountHint).angleStep =
        2 * Real.pi / max 5 spokeCountHint ∧
      (computeDimensions width height spokeCountHint).angleStep *
        (computeDimensions width height spokeCountHint).spokeCount = 2 * Real.pi) ∧
    ((computeDimensions 400 400 8).centerX = 200 ∧
     (computeDimensions 400 400 8).centerY = 200 ∧
     (computeDimensions 400 400 8).radius = 140 ∧
     (computeDimensions 400 400 8).spokeCount = 8 ∧
     (computeDimensions 400 400 8).angleStep = Real.pi / 4 ∧
     |(computeDimensions 400 400 8).angleStep - 0.7853981634| < 1e-6) := by
  have hcast : (CHART_DEFAULTS.MINIMUM_SPOKES : ℝ) = 5 := by
    norm_num [CHART_DEFAULTS.MINIMUM_SPOKES]
  have hpad : (CHART_DEFAULTS.PADDING : ℝ) = 60 := by
    norm_num [CHART_DEFAULTS.PADDING]
  constructor
  · intro width height spokeCountHint
    have hpos : (0:ℝ) < max 5 spokeCountHint :=
      lt_of_lt_of_le (by norm_num) (le_max_left _ _)
    refine ⟨rfl, rfl, ?_, ?_, ?_, ?_⟩
    · simp [computeDimensions, hpad]
    · simp [computeDimensions, hcast]
    · simp [computeDimensions, hcast]
    · simp only [computeDimensions, hcast]
      exact div_mul_cancel₀ _ (ne_of_gt hpos)
  · have hmax : max (5:ℝ) 8 = 8 := max_eq_right (by norm_num)
    have hstep : (computeDimensions 400 400 8).angleStep = Real.pi / 4 := by
      simp only [computeDimensions, hcast, hmax]
      ring
    refine ⟨by simp [computeDimensions]; norm_num, by simp [computeDimensions]; norm_num,
      ?_, ?_, hstep, ?_⟩
    · simp [computeDimensions, hpad]
      norm_num
    · simp [computeDimensions, hcast, hmax]
    · rw [hstep]
      rw [abs_sub_lt_iff]
      constructor
      · have := Real.pi_lt_d6
        norm_num
        linarith
      · have := Real.pi_gt_d6
        norm_num
        linarith

/-- C8: under the precondition `maxValue > 0`, the animated point of any
static point produced by `computeStaticPoint` is
`(centerX + maxRadius·progress·cos, centerY + maxRadius·progress·sin)`;
at `progress = 0` it is exactly the center, and at `progress = 1` it is
exactly the full-value radius position. -/
theorem computeAnimatedPoint_spec (dims : ChartDimensions) (value maxValue : ℝ)
    (index : Nat) (progress : ℝ) (_hmax : 0 < maxValue) :
    computeAnimatedPoint (computeStaticPoint dims value maxValue index) progress =
      { x := (computeStaticPoint dims value maxValue index).centerX +
          (computeStaticPoint dims value maxValue index).maxRadius * progress *
            (computeStaticPoint dims value maxValue index).cos,
        y := (computeStaticPoint dims value maxValue index).centerY +
          (computeStaticPoint dims value maxValue index).maxRadius * progress *
            (computeStaticPoint dims value maxValue index).sin } ∧
    computeAnimatedPoint (computeStaticPoint dims value maxValue index) 0 =
      { x := (computeStaticPoint dims value maxValue index).centerX,
        y := (computeStaticPoint dims value maxValue index).centerY } ∧
    computeAnimatedPoint (computeStaticPoint dims value maxValue index) 1 =
      { x := (computeStaticPoint dims value maxValue index).centerX +
          (computeStaticPoint dims value maxValue index).maxRadius *
            (computeStaticPoint dims value maxValue index).cos,
        y := (computeStaticPoint dims value maxValue index).centerY +
          (computeStaticPoint dims value maxValue index).maxRadius *
            (computeStaticPoint dims value maxValue index).sin } := by
  refine ⟨?_, ?_, ?_⟩ <;>
    simp only [computeAnimatedPoint, Point.mk.injEq] <;>
    exact ⟨by ring, by ring⟩

/-- C8 witness: the theorem applied at the concrete static point of index 0
for value 3 on a 400×400 chart with `maxValue = 5`, at progress `1/2`. -/
theorem computeAnimatedPoint_spec_witness :
    (0:ℝ) < 5 ∧
    computeAnimatedPoint (computeStaticPoint (computeDimensions 400 400 8) 3 5 0) (1/2) =
      { x := (computeStaticPoint (computeDimensions 400 400 8) 3 5 0).centerX +
          (computeStaticPoint (computeDimensions 400 400 8) 3 5 0).maxRadius * (1/2) *
            (computeStaticPoint (computeDimensions 400 400 8) 3 5 0).cos,
        y := (computeStaticPoint (computeDimensions 400 400 8) 3 5 0).centerY +
          (computeStaticPoint (computeDimensions 400 400 8) 3 5 0).maxRadius * (1/2) *
            (computeStaticPoint (computeDimensions 400 400 8) 3 5 0).sin } :=
  ⟨by norm_num,
    (computeAnimatedPoint_spec (computeDimensions 400 400 8) 3 5 0 (1/2) (by norm_num)).1⟩

/-! ### PathBuilder (src/unnamed/part_004, radarPath memo lines 273-299) -/

namespace ANIMATION_CONFIG

/-- `ANIMATION_CONFIG.CONTROL_POINT_DISTANCE = 0.15`. -/
noncomputable def CONTROL_POINT_DISTANCE : ℝ := 0.15

end ANIMATION_CONFIG

/-- Model of JavaScript `Number.prototype.toFixed(2)`: the magnitude is
rounded to hundredths and written with exactly two decimals.  The C9
theorem below is purely structural in this formatter — it never depends on
the digits produced. -/
noncomputable def toFixed2 (x : ℝ) : String :=
  let sign := if x < 0 then "-" else ""
  let c : ℤ := round (|x| * 100)
  let frac := c % 100
  sign ++ toString (c / 100) ++ "." ++
    (if frac < 10 then "0" ++ toString frac else toString frac)

/-- The cubic-curve command emitted by one iteration of the `radarPath`
loop for the pair `(current, next)`: control points at
`current + delta·CONTROL_POINT_DISTANCE` and
`next − delta·CONTROL_POINT_DISTANCE` where `delta = next − current`. -/
noncomputable def cubicSegment (current next : Point) : String :=
  let dx := next.x - current.x
  let dy := next.y - current.y
  let cp1x := current.x + dx * ANIMATION_CONFIG.CONTROL_POINT_DISTANCE
  let cp1y := current.y + dy * ANIMATION_CONFIG.CONTROL_POINT_DISTANCE
  let cp2x := next.x - dx * ANIMATION_CONFIG.CONTROL_POINT_DISTANCE
  let cp2y := next.y - dy * ANIMATION_CONFIG.CONTROL_POINT_DISTANCE
  " C " ++ toFixed2 cp1x ++ " " ++ toFixed2 cp1y ++ ", " ++
    toFixed2 cp2x ++ " " ++ toFixed2 cp2y ++ ", " ++
    toFixed2 next.x ++ " " ++ toFixed2 next.y

/-- Shallow embedding of the `radarPath` memo: empty input yields the empty
string; otherwise a move command to the first point, one cubic segment per
index `i` towards index `(i+1) mod length`, and the close marker `Z`. -/
noncomputable def buildSmoothClosedPath (dataPoints : List Point) : String :=
  if dataPoints.length = 0 then ""
  else
    let start := "M " ++ toFixed2 (dataPoints.getD 0 ⟨0, 0⟩).x ++ " " ++
      toFixed2 (dataPoints.getD 0 ⟨0, 0⟩).y
    let path := (List.range dataPoints.length).foldl
      (fun acc i =>
        acc ++ cubicSegment (dataPoints.getD i ⟨0, 0⟩)
          (dataPoints.getD ((i + 1) % dataPoints.length) ⟨0, 0⟩)) start
    path ++ " Z"

/-- Concatenation of a list of strings, in order. -/
def concatAll (l : List String) : String := l.foldr (fun a b => a ++ b) ""

/-- A left fold that only appends to its accumulator is the accumulator
followed by the concatenation of the appended pieces. -/
theorem foldl_append_eq_concatAll {α : Type} (g : α → String) :
    ∀ (l : List α) (init : String),
      l.foldl (fun acc i => acc ++ g i) init = init ++ concatAll (l.map g) := by
  intro l
  induction l with
  | nil => intro init; simp [concatAll, String.append_empty]
  | cons a t ih =>
      intro init
      simp only [List.foldl_cons, List.map_cons]
      rw [ih (init ++ g a), String.append_assoc]
      rfl

/-- The indexed pairs `(points[i], points[(i+1) mod n])` of the path loop
are exactly the pairs of each point with its cyclic successor, i.e. the
zip of the list with its one-step rotation. -/
theorem range_map_eq_zip_rotate (ps : List Point) (hne : ps ≠ []) :
    (List.range ps.length).map
        (fun i => cubicSegment (ps.getD i ⟨0, 0⟩) (ps.getD ((i + 1) % ps.length) ⟨0, 0⟩)) =
      (ps.zip (ps.rotate 1)).map (fun pr => cubicSegment pr.1 pr.2) := by
  have hlen : 0 < ps.length := List.length_pos.mpr hne
  apply List.ext_getElem
  · simp [List.length_zip, List.length_rotate]
  · intro n h1 h2
    have hn : n < ps.length := by simpa using h1
    have hmod : (n + 1) % ps.length < ps.length := Nat.mod_lt _ hlen
    simp only [List.getElem_map, List.getElem_range, List.getElem_zip]
    rw [List.getD_eq_getElem ps _ hn, List.getD_eq_getElem ps _ hmod, List.getElem_rotate]

/-- C9: `buildSmoothClosedPath` maps the empty list to the empty string;
for every non-empty list it is exactly a move command at the first point,
followed by one cubic segment per consecutive pair (the last point wrapping
back to the first — the zip with the one-step rotation), followed by the
close marker `" Z"`; in particular it always starts with `"M "` and ends
with `" Z"`. -/
theorem buildSmoothClosedPath_spec :
    buildSmoothClosedPath [] = "" ∧
    ∀ (p0 : Point) (rest : List Point),
      buildSmoothClosedPath (p0 :: rest) =
        "M " ++ toFixed2 p0.x ++ " " ++ toFixed2 p0.y ++
          concatAll (((p0 :: rest).zip ((p0 :: rest).rotate 1)).map
            (fun pr => cubicSegment pr.1 pr.2)) ++ " Z" ∧
      (∃ t, buildSmoothClosedPath (p0 :: rest) = "M " ++ t) ∧
      (∃ s, buildSmoothClosedPath (p0 :: rest) = s ++ " Z") := by
  constructor
  · simp [buildSmoothClosedPath]
  · intro p0 rest
    have hmain : buildSmoothClosedPath (p0 :: rest) =
        "M " ++ toFixed2 p0.x ++ " " ++ toFixed2 p0.y ++
          concatAll (((p0 :: rest).zip ((p0 :: rest).rotate 1)).map
            (fun pr => cubicSegment pr.1 pr.2)) ++ " Z" := by
      have hne : (p0 :: rest) ≠ [] := by simp
      simp only [buildSmoothClosedPath]
      rw [if_neg (by simp)]
      rw [foldl_append_eq_concatAll]
      rw [range_map_eq_zip_rotate _ hne]
      rfl
    refine ⟨hmain, ?_, ?_⟩
    · refine ⟨toFixed2 p0.x ++ (" " ++ (toFixed2 p0.y ++
        (concatAll (((p0 :: rest).zip ((p0 :: rest).rotate 1)).map
          (fun pr => cubicSegment pr.1 pr.2)) ++ " Z"))), ?_⟩
      rw [hmain]
      simp [String.append_assoc]
    · exact ⟨_, hmain⟩

end RadarChart
